import Mathlib

/-!
Shallow embedding of the Jira-integration tool-dispatch layer
(src/official/jira-integration/server.py): the tool catalog declared in
`list_tools`, and the dispatch function `call_tool` together with the
external-client calls it issues.  The external Jira client is modelled as a
record of oracle functions that either return a value or raise a Python
exception; `call_tool` is modelled as a state-passing computation that
accumulates the trace of client calls it makes.  Rendered payload text
abstracts the whitespace of Python's json.dumps(indent=2) but keeps its
structure and key order.
-/

/-- Untyped argument values as they arrive in the raw `arguments` mapping
(string, integer, boolean, list of strings). -/
inductive Val where
  | vStr (s : String)
  | vInt (n : Int)
  | vBool (b : Bool)
  | vList (l : List String)
deriving DecidableEq

/-- Python truthiness of a value (`if priority:` etc. in the source). -/
def Val.truthy : Val → Bool
  | .vStr s => !(s == "")
  | .vInt n => !(n == 0)
  | .vBool b => b
  | .vList l => !l.isEmpty

/-- Python str() of a value, used where the source interpolates a raw
argument into an f-string. -/
def Val.pyStr : Val → String
  | .vStr s => s
  | .vInt n => toString n
  | .vBool b => if b then "True" else "False"
  | .vList l =>
      "[" ++ String.intercalate ", " (l.map (fun s => "\x27" ++ s ++ "\x27")) ++ "]"

/-- A raw-arguments mapping: parameter name to value, absent keys map to
none. -/
def Args : Type := String → Option Val

/-- Build an arguments mapping from an association list. -/
def argsOf (l : List (String × Val)) : Args :=
  fun k => (l.find? (fun p => p.1 == k)).map (fun p => p.2)

/-- Values of the tracker-native field maps built for create/update:
either the argument value itself, or the value wrapped in a one-key
object as the source does with `\x7b"name": v\x7d` and `\x7b"key": v\x7d`. -/
inductive FVal where
  | plain (v : Val)
  | nameObj (v : Val)
  | keyObj (v : Val)
deriving DecidableEq

/-- One transition candidate as returned by `jira.transitions`:
`id`, `name`, and the target-status name `t["to"]["name"]`. -/
structure Transition where
  id : String
  name : String
  toStatus : String
deriving DecidableEq

/-- The issue fields the dispatch layer reads off a fetched issue object.
Optional fields model Python None. -/
structure Issue where
  key : String
  summary : String
  description : Option String
  status : String
  issuetype : String
  assignee : Option String
  reporter : Option String
  priority : Option String
  labels : List String
  created : String
  updated : String
deriving DecidableEq

/-- One comment as returned by `jira.comments`. -/
structure Comment where
  author : String
  body : String
  created : String
deriving DecidableEq

/-- One project as returned by `jira.projects`.  `archived`/`lead` are
optional attributes (`hasattr` checks in the source): none models the
attribute being absent. -/
structure Project where
  key : String
  name : String
  lead : Option String
  archived : Option Bool
deriving DecidableEq

/-- Python exceptions relevant to the dispatch boundary: a JIRAError
carrying status code and text, or any other exception carrying its str(). -/
inductive PyExc where
  | jiraErr (status : Int) (text : String)
  | other (msg : String)
deriving DecidableEq

/-- One call made to the external client (get_jira_client or a method of
the client), with the arguments the dispatch layer passed. -/
inductive Ev where
  | getClient
  | searchIssues (jql : Val) (maxResults : Val) (fields : Option Val)
  | getIssue (key : Val) (expand : Option String)
  | getComments (key : Val)
  | createIssue (fields : List (String × FVal))
  | updateIssue (key : Val) (fields : List (String × FVal))
  | addComment (key : Val) (body : Val)
  | getTransitions (key : Val)
  | applyTransition (key : Val) (tid : String) (comment : Option Val)
  | listProjects
deriving DecidableEq

/-- Whether a client call mutates tracker state (issue creation, field
update, comment append, transition application). -/
def Ev.isMutating : Ev → Bool
  | .createIssue _ => true
  | .updateIssue _ _ => true
  | .addComment _ _ => true
  | .applyTransition _ _ _ => true
  | _ => false

/-- The external-client collaborator: get_jira_client plus every client
method `call_tool` uses.  Each operation either returns a result or raises. -/
structure JiraClient where
  acquire : Except PyExc Unit
  clientInfo : String
  searchIssues : Val → Val → Option Val → Except PyExc (List Issue)
  getIssue : Val → Option String → Except PyExc Issue
  getComments : Val → Except PyExc (List Comment)
  createIssue : List (String × FVal) → Except PyExc String
  updateIssue : Val → List (String × FVal) → Except PyExc Unit
  addComment : Val → Val → Except PyExc Unit
  transitions : Val → Except PyExc (List Transition)
  applyTransition : Val → String → Option Val → Except PyExc Unit
  projects : Except PyExc (List Project)

/-- A traced, fallible computation: threads the list of client calls made
so far and either returns a value or propagates a raised exception. -/
def M (α : Type) : Type := List Ev → Except PyExc α × List Ev

/-- Sequencing: a raised exception short-circuits, the trace persists. -/
def M.bind {α β : Type} (x : M α) (f : α → M β) : M β :=
  fun tr =>
    match x tr with
    | (.ok a, tr2) => f a tr2
    | (.error e, tr2) => (.error e, tr2)

/-- Return a value without touching the client. -/
def M.pure {α : Type} (a : α) : M α := fun tr => (.ok a, tr)

/-- Raise a Python exception. -/
def M.raiseExc {α : Type} (e : PyExc) : M α := fun tr => (.error e, tr)

/-- Record one client call and adopt its outcome. -/
def callC {α : Type} (ev : Ev) (r : Except PyExc α) : M α :=
  fun tr => (r, tr ++ [ev])

/-- Subscript access `arguments[k]`: raises KeyError (whose str() is the
quoted key) when the key is absent. -/
def reqArg (a : Args) (k : String) : M Val :=
  match a k with
  | some v => M.pure v
  | none => M.raiseExc (.other ("\x27" ++ k ++ "\x27"))

/-- Python str.lower(), as used by the transition matcher. -/
def pyLower (s : String) : String := String.mk (s.data.map Char.toLower)

/-- Whether a candidate matches a transition token:
`t["name"].lower() == transition.lower() or t["id"] == transition`. -/
def matchesTok (tok : String) (t : Transition) : Prop :=
  pyLower t.name = pyLower tok ∨ t.id = tok

instance (tok : String) (t : Transition) : Decidable (matchesTok tok t) := by
  unfold matchesTok; infer_instance

/-- The transition-matching loop of `call_tool` (server.py lines 395-400):
scan the candidates in order, stop at the first match. -/
def resolveTransition : List Transition → String → Option Transition
  | [], _ => none
  | t :: ts, tok =>
      if matchesTok tok t then some t else resolveTransition ts tok

/-- Flat JSON values appearing in rendered payloads. -/
inductive JVal where
  | jstr (s : String)
  | jnum (n : Int)
  | jbool (b : Bool)
  | jnull
  | jstrList (l : List String)
  | commentList (l : List Comment)
  | transList (l : List Transition)
deriving DecidableEq

/-- A raw argument value rendered as JSON (json.dumps of the value). -/
def valToJ : Val → JVal
  | .vStr s => .jstr s
  | .vInt n => .jnum n
  | .vBool b => .jbool b
  | .vList l => .jstrList l

/-- Quote a string as JSON text. -/
def jq (s : String) : String := "\"" ++ s ++ "\""

/-- Render an object given its already-rendered entries. -/
def renderEntries (l : List (String × String)) : String :=
  "\x7b" ++ String.intercalate ", " (l.map (fun p => jq p.1 ++ ": " ++ p.2)) ++ "\x7d"

/-- Render one comment object as in the get-issue payload. -/
def renderComment (c : Comment) : String :=
  renderEntries [("author", jq c.author), ("body", jq c.body), ("created", jq c.created)]

/-- Render one transition summary as in the get-transitions payload. -/
def renderTransition (t : Transition) : String :=
  renderEntries [("id", jq t.id), ("name", jq t.name), ("to_status", jq t.toStatus)]

/-- Render a flat JSON value. -/
def JVal.render : JVal → String
  | .jstr s => jq s
  | .jnum n => toString n
  | .jbool b => if b then "true" else "false"
  | .jnull => "null"
  | .jstrList l => "[" ++ String.intercalate ", " (l.map jq) ++ "]"
  | .commentList l => "[" ++ String.intercalate ", " (l.map renderComment) ++ "]"
  | .transList l => "[" ++ String.intercalate ", " (l.map renderTransition) ++ "]"

/-- Render a JSON object (a payload record) from its key/value entries. -/
def renderObj (l : List (String × JVal)) : String :=
  renderEntries (l.map (fun p => (p.1, p.2.render)))

/-- Render an array of JSON objects. -/
def renderObjArr (l : List (List (String × JVal))) : String :=
  "[" ++ String.intercalate ", " (l.map renderObj) ++ "]"

/-- A nullable string as JSON. -/
def jopt : Option String → JVal
  | some s => .jstr s
  | none => .jnull

/-- One conditional entry of the update field map: the key is included
exactly when it is present in the raw arguments (`if k in arguments:`). -/
def entryIf (a : Args) (k : String) (f : Val → FVal) : List (String × FVal) :=
  match a k with
  | some v => [(k, f v)]
  | none => []

/-- The field-update map of the update handler (server.py lines 351-366):
summary/description plain, priority/assignee name-wrapped, labels plain,
each included exactly when present in the raw arguments. -/
def updateFieldsOf (a : Args) : List (String × FVal) :=
  entryIf a "summary" FVal.plain
  ++ entryIf a "description" FVal.plain
  ++ entryIf a "priority" FVal.nameObj
  ++ entryIf a "assignee" FVal.nameObj
  ++ entryIf a "labels" FVal.plain

/-- One truthiness-guarded entry of the create field map: included only
when the argument is present and truthy (`if priority:` etc.). -/
def entryIfTruthy (k : String) (f : Val → FVal) (o : Option Val) : List (String × FVal) :=
  match o with
  | some v => if v.truthy then [(k, f v)] else []
  | none => []

/-- The field map of the create handler (server.py lines 315-335):
project key-wrapped, summary and defaulted description always present,
issuetype name-wrapped with default "Task"; priority/assignee/labels
appended only when truthy (`if priority:` etc.; the source defaults labels
to the empty list before the truthiness test, and that default is falsy,
so the guard equals present-and-truthy). -/
def createFieldsOf (project summary : Val) (a : Args) : List (String × FVal) :=
  [("project", FVal.keyObj project),
   ("summary", FVal.plain summary),
   ("description", FVal.plain ((a "description").getD (Val.vStr ""))),
   ("issuetype", FVal.nameObj ((a "issue_type").getD (Val.vStr "Task")))]
  ++ entryIfTruthy "priority" FVal.nameObj (a "priority")
  ++ entryIfTruthy "assignee" FVal.nameObj (a "assignee")
  ++ entryIfTruthy "labels" FVal.plain (a "labels")

/-- Python `",".join(expand)`: joins a list of strings, joins the
characters of a string, raises TypeError otherwise. -/
def pyJoin (v : Val) : M String :=
  match v with
  | .vList l => M.pure (String.intercalate "," l)
  | .vStr s => M.pure (String.intercalate "," (s.data.map (fun ch => String.mk [ch])))
  | _ => M.raiseExc (.other "TypeError: can only join an iterable")

/-- Python `x in v` for the membership test on the expand argument:
list membership, substring test on a string, TypeError otherwise. -/
def pyInM (x : String) (v : Val) : M Bool :=
  match v with
  | .vList l => M.pure (l.contains x)
  | .vStr s => M.pure (decide (List.IsInfix x.data s.data))
  | _ => M.raiseExc (.other "TypeError: argument is not iterable")

/-- The expand string passed to the client by the get handler:
`",".join(expand) if expand else None`, for a well-typed expand value. -/
def expandJoinOf (l : Option (List String)) : Option String :=
  match l with
  | some lst => if (Val.vList lst).truthy then some (String.intercalate "," lst) else none
  | none => none

/-- One search-result item (server.py lines 256-266): key, summary,
status, issue type, assignee-or-"Unassigned", nullable reporter and
priority, created/updated timestamps. -/
def searchItemJ (iss : Issue) : List (String × JVal) :=
  [("key", JVal.jstr iss.key),
   ("summary", JVal.jstr iss.summary),
   ("status", JVal.jstr iss.status),
   ("issue_type", JVal.jstr iss.issuetype),
   ("assignee", JVal.jstr (iss.assignee.getD "Unassigned")),
   ("reporter", jopt iss.reporter),
   ("priority", jopt iss.priority),
   ("created", JVal.jstr iss.created),
   ("updated", JVal.jstr iss.updated)]

/-- The issue record of the get handler (server.py lines 280-305): the
base fields plus a browse url, with a comments list appended exactly when
the expand condition held. -/
def getIssueData (url : String) (iss : Issue) (withComments : Bool)
    (cs : List Comment) : List (String × JVal) :=
  [("key", JVal.jstr iss.key),
   ("summary", JVal.jstr iss.summary),
   ("description", jopt iss.description),
   ("status", JVal.jstr iss.status),
   ("issue_type", JVal.jstr iss.issuetype),
   ("assignee", JVal.jstr (iss.assignee.getD "Unassigned")),
   ("reporter", jopt iss.reporter),
   ("priority", jopt iss.priority),
   ("labels", JVal.jstrList iss.labels),
   ("created", JVal.jstr iss.created),
   ("updated", JVal.jstr iss.updated),
   ("url", JVal.jstr (url ++ "/browse/" ++ iss.key))]
  ++ (if withComments then [("comments", JVal.commentList cs)] else [])

/-- The not-found message of the transition handler (server.py 403-408). -/
def transitionNotFoundMsg (token : Val) (ts : List Transition) : String :=
  "❌ Transition \x27" ++ token.pyStr ++ "\x27 not found.\n\n"
  ++ "Available transitions: " ++ String.intercalate ", " (ts.map (fun t => t.name))

/-- Handler of jira_search_issues (server.py lines 247-272). -/
def searchH (c : JiraClient) (a : Args) : M String :=
  M.bind (reqArg a "jql") fun jql =>
  let maxResults := (a "max_results").getD (Val.vInt 50)
  let fields := a "fields"
  M.bind (callC (Ev.searchIssues jql maxResults fields) (c.searchIssues jql maxResults fields)) fun issues =>
  M.pure ("Found " ++ toString issues.length ++ " issue(s):\n\n"
          ++ renderObjArr (issues.map searchItemJ))

/-- Handler of jira_get_issue (server.py lines 274-310). -/
def getH (c : JiraClient) (a : Args) : M String :=
  M.bind (reqArg a "issue_key") fun issueKey =>
  let expand := a "expand"
  M.bind (match expand with
          | some v => if v.truthy then M.bind (pyJoin v) (fun s => M.pure (some s)) else M.pure none
          | none => M.pure none) fun ejoin =>
  M.bind (callC (Ev.getIssue issueKey ejoin) (c.getIssue issueKey ejoin)) fun iss =>
  M.bind (match expand with
          | some v => if v.truthy then pyInM "comments" v else M.pure false
          | none => M.pure false) fun cond =>
  if cond then
    M.bind (callC (Ev.getComments issueKey) (c.getComments issueKey)) fun cs =>
    M.pure (renderObj (getIssueData c.clientInfo iss true cs))
  else
    M.pure (renderObj (getIssueData c.clientInfo iss false []))

/-- Handler of jira_create_issue (server.py lines 312-345). -/
def createH (c : JiraClient) (a : Args) : M String :=
  M.bind (reqArg a "project") fun project =>
  M.bind (reqArg a "summary") fun summary =>
  let fields := createFieldsOf project summary a
  M.bind (callC (Ev.createIssue fields) (c.createIssue fields)) fun key =>
  M.pure ("✅ Issue created successfully!\n\n"
          ++ "Key: " ++ key ++ "\n"
          ++ "URL: " ++ c.clientInfo ++ "/browse/" ++ key ++ "\n"
          ++ "Summary: " ++ summary.pyStr)

/-- Handler of jira_update_issue (server.py lines 347-373). -/
def updateH (c : JiraClient) (a : Args) : M String :=
  M.bind (reqArg a "issue_key") fun issueKey =>
  M.bind (callC (Ev.getIssue issueKey none) (c.getIssue issueKey none)) fun _ =>
  let fields := updateFieldsOf a
  M.bind (callC (Ev.updateIssue issueKey fields) (c.updateIssue issueKey fields)) fun _ =>
  M.pure ("✅ Issue " ++ issueKey.pyStr ++ " updated successfully!")

/-- Handler of jira_add_comment (server.py lines 375-384). -/
def addCommentH (c : JiraClient) (a : Args) : M String :=
  M.bind (reqArg a "issue_key") fun issueKey =>
  M.bind (reqArg a "comment") fun comment =>
  M.bind (callC (Ev.addComment issueKey comment) (c.addComment issueKey comment)) fun _ =>
  M.pure ("✅ Comment added to " ++ issueKey.pyStr)

/-- Handler of jira_transition_issue (server.py lines 386-416): fetch the
candidates, scan them with the matching loop (which calls .lower() on the
token as soon as a candidate is examined), then treat a missing or falsy
(empty-string) resolved id as not found, else apply the transition. -/
def transitionH (c : JiraClient) (a : Args) : M String :=
  M.bind (reqArg a "issue_key") fun issueKey =>
  M.bind (reqArg a "transition") fun token =>
  let comment := a "comment"
  M.bind (callC (Ev.getTransitions issueKey) (c.transitions issueKey)) fun ts =>
  M.bind (match ts with
          | [] => M.pure none
          | _ => match token with
                 | .vStr s => M.pure (resolveTransition ts s)
                 | _ => M.raiseExc (.other "AttributeError: lower")) fun found =>
  match found with
  | some t =>
      if t.id = "" then
        M.pure (transitionNotFoundMsg token ts)
      else
        M.bind (callC (Ev.applyTransition issueKey t.id comment) (c.applyTransition issueKey t.id comment)) fun _ =>
        M.pure ("✅ Issue " ++ issueKey.pyStr ++ " transitioned to \x27" ++ t.name ++ "\x27")
  | none => M.pure (transitionNotFoundMsg token ts)

/-- Handler of jira_get_transitions (server.py lines 418-438). -/
def getTransH (c : JiraClient) (a : Args) : M String :=
  M.bind (reqArg a "issue_key") fun issueKey =>
  M.bind (callC (Ev.getTransitions issueKey) (c.transitions issueKey)) fun ts =>
  M.pure (renderObj [("issue", valToJ issueKey), ("available_transitions", JVal.transList ts)])

/-- One project summary of the list-projects payload (server.py 451-456). -/
def projectItemJ (url : String) (p : Project) : List (String × JVal) :=
  [("key", JVal.jstr p.key),
   ("name", JVal.jstr p.name),
   ("lead", jopt p.lead),
   ("url", JVal.jstr (url ++ "/browse/" ++ p.key))]

/-- Handler of jira_list_projects (server.py lines 440-461): skip a
project exactly when archived projects were not requested and the project
has a truthy archived attribute. -/
def listProjH (c : JiraClient) (a : Args) : M String :=
  let includeArchived := (a "include_archived").getD (Val.vBool false)
  M.bind (callC Ev.listProjects c.projects) fun ps =>
  let kept := ps.filter (fun p => !(!includeArchived.truthy && (p.archived == some true)))
  M.pure ("Found " ++ toString kept.length ++ " project(s):\n\n"
          ++ renderObjArr (kept.map (projectItemJ c.clientInfo)))

/-- The body of `call_tool` inside its try block: obtain the client, then
dispatch on the tool name; an unrecognised name falls through to the
unknown-tool message (server.py lines 244-467). -/
def bodyM (c : JiraClient) (n : String) (a : Args) : M String :=
  M.bind (callC Ev.getClient c.acquire) fun _ =>
  if n = "jira_search_issues" then searchH c a
  else if n = "jira_get_issue" then getH c a
  else if n = "jira_create_issue" then createH c a
  else if n = "jira_update_issue" then updateH c a
  else if n = "jira_add_comment" then addCommentH c a
  else if n = "jira_transition_issue" then transitionH c a
  else if n = "jira_get_transitions" then getTransH c a
  else if n = "jira_list_projects" then listProjH c a
  else M.pure ("❌ Unknown tool: " ++ n)

/-- The full `call_tool` dispatch with its exception boundary (server.py
lines 469-479): a JIRAError becomes the upstream failure line, any other
exception the catch-all error line; the returned singleton list models the
single TextContent every branch returns, paired with the trace of client
calls. -/
def callToolT (c : JiraClient) (n : String) (a : Args) : List String × List Ev :=
  match bodyM c n a [] with
  | (.ok s, tr) => ([s], tr)
  | (.error (.jiraErr st tx), tr) =>
      (["❌ Jira Error: " ++ toString st ++ " - " ++ tx], tr)
  | (.error (.other m), tr) => (["❌ Error: " ++ m], tr)

/-- One property of a tool input schema: its name, JSON type, description,
the item type when it is an array, and the declared default when any. -/
structure PropSpec where
  name : String
  jtype : String
  descr : String
  items : Option String
  default : Option Val
deriving DecidableEq

/-- One tool declaration of `list_tools`: name, description, the ordered
properties of its input schema, and the schema's required list. -/
structure ToolSpec where
  name : String
  descr : String
  properties : List PropSpec
  required : List String
deriving DecidableEq

/-- The eight tool declarations returned by `list_tools` (server.py lines
48-238), in source order. -/
def toolSpecs : List ToolSpec :=
  [{ name := "jira_search_issues",
     descr := "Search Jira issues using JQL (Jira Query Language)",
     properties :=
       [{ name := "jql", jtype := "string",
          descr := "JQL query string (e.g., \x27project = MYPROJ AND status = Open\x27)",
          items := none, default := none },
        { name := "max_results", jtype := "integer",
          descr := "Maximum number of results to return",
          items := none, default := some (Val.vInt 50) },
        { name := "fields", jtype := "array",
          descr := "Specific fields to return (optional)",
          items := some "string", default := none }],
     required := ["jql"] },
   { name := "jira_get_issue",
     descr := "Get detailed information about a specific Jira issue",
     properties :=
       [{ name := "issue_key", jtype := "string",
          descr := "Issue key (e.g., \x27PROJ-123\x27)",
          items := none, default := none },
        { name := "expand", jtype := "array",
          descr := "Additional data to expand (e.g., [\x27changelog\x27, \x27comments\x27])",
          items := some "string", default := none }],
     required := ["issue_key"] },
   { name := "jira_create_issue",
     descr := "Create a new Jira issue",
     properties :=
       [{ name := "project", jtype := "string",
          descr := "Project key (e.g., \x27PROJ\x27)",
          items := none, default := none },
        { name := "summary", jtype := "string",
          descr := "Issue summary/title",
          items := none, default := none },
        { name := "description", jtype := "string",
          descr := "Issue description",
          items := none, default := none },
        { name := "issue_type", jtype := "string",
          descr := "Issue type (e.g., \x27Bug\x27, \x27Story\x27, \x27Task\x27)",
          items := none, default := some (Val.vStr "Task") },
        { name := "priority", jtype := "string",
          descr := "Priority (e.g., \x27High\x27, \x27Medium\x27, \x27Low\x27)",
          items := none, default := none },
        { name := "assignee", jtype := "string",
          descr := "Assignee username or email",
          items := none, default := none },
        { name := "labels", jtype := "array",
          descr := "Issue labels",
          items := some "string", default := none }],
     required := ["project", "summary", "issue_type"] },
   { name := "jira_update_issue",
     descr := "Update an existing Jira issue",
     properties :=
       [{ name := "issue_key", jtype := "string",
          descr := "Issue key (e.g., \x27PROJ-123\x27)",
          items := none, default := none },
        { name := "summary", jtype := "string",
          descr := "New summary/title",
          items := none, default := none },
        { name := "description", jtype := "string",
          descr := "New description",
          items := none, default := none },
        { name := "priority", jtype := "string",
          descr := "New priority",
          items := none, default := none },
        { name := "assignee", jtype := "string",
          descr := "New assignee username or email",
          items := none, default := none },
        { name := "labels", jtype := "array",
          descr := "New labels",
          items := some "string", default := none }],
     required := ["issue_key"] },
   { name := "jira_add_comment",
     descr := "Add a comment to a Jira issue",
     properties :=
       [{ name := "issue_key", jtype := "string",
          descr := "Issue key (e.g., \x27PROJ-123\x27)",
          items := none, default := none },
        { name := "comment", jtype := "string",
          descr := "Comment text (supports Jira markdown)",
          items := none, default := none }],
     required := ["issue_key", "comment"] },
   { name := "jira_transition_issue",
     descr := "Change the status of a Jira issue (e.g., move to In Progress, Done)",
     properties :=
       [{ name := "issue_key", jtype := "string",
          descr := "Issue key (e.g., \x27PROJ-123\x27)",
          items := none, default := none },
        { name := "transition", jtype := "string",
          descr := "Transition name or ID (e.g., \x27In Progress\x27, \x27Done\x27, \x2721\x27)",
          items := none, default := none },
        { name := "comment", jtype := "string",
          descr := "Optional comment when transitioning",
          items := none, default := none }],
     required := ["issue_key", "transition"] },
   { name := "jira_get_transitions",
     descr := "Get available transitions (status changes) for a Jira issue",
     properties :=
       [{ name := "issue_key", jtype := "string",
          descr := "Issue key (e.g., \x27PROJ-123\x27)",
          items := none, default := none }],
     required := ["issue_key"] },
   { name := "jira_list_projects",
     descr := "List all accessible Jira projects",
     properties :=
       [{ name := "include_archived", jtype := "boolean",
          descr := "Include archived projects",
          items := none, default := some (Val.vBool false) }],
     required := [] }]

/-- The registered tool names, in catalog order. -/
def toolNames : List String := toolSpecs.map (fun t => t.name)

/-- The required list declared for a tool name (empty for names outside
the catalog). -/
def requiredOf (n : String) : List String :=
  ((toolSpecs.find? (fun t => t.name == n)).map (fun t => t.required)).getD []

/-- A sample fetched issue used by concrete witnesses. -/
def issA : Issue :=
  { key := "PROJ-1", summary := "Sample", description := some "Desc",
    status := "Open", issuetype := "Bug", assignee := none, reporter := none,
    priority := none, labels := [], created := "2024-01-01", updated := "2024-01-02" }

/-- A well-behaved concrete client used by witnesses: acquisition succeeds
and every operation returns a fixed successful result. -/
def cOK : JiraClient :=
  { acquire := .ok (),
    clientInfo := "https://jira.example.com",
    searchIssues := fun _ _ _ => .ok [],
    getIssue := fun _ _ => .ok issA,
    getComments := fun _ => .ok [],
    createIssue := fun _ => .ok "PROJ-9",
    updateIssue := fun _ _ => .ok (),
    addComment := fun _ _ => .ok (),
    transitions := fun _ => .ok [⟨"21", "In Progress", "In Progress"⟩, ⟨"31", "Done", "Done"⟩],
    applyTransition := fun _ _ _ => .ok (),
    projects := .ok [] }

/-- A client whose acquisition raises, as get_jira_client does when the
environment configuration is missing. -/
def cBad : JiraClient :=
  { cOK with
    acquire := .error (.other "Missing Jira configuration. Required environment variables: JIRA_URL, JIRA_EMAIL, JIRA_API_TOKEN") }

/-- A client whose transition list contains a candidate with an empty id. -/
def cEmptyId : JiraClient :=
  { cOK with transitions := fun _ => .ok [⟨"", "Done", "Done"⟩] }

/-- The empty arguments mapping. -/
def noArgs : Args := fun _ => none

/-- If the matching loop returns a candidate, that candidate matches the
token and every earlier candidate does not. -/
lemma resolveTransition_eq_some (cands : List Transition) (tok : String) (t : Transition)
    (h : resolveTransition cands tok = some t) :
    matchesTok tok t ∧ ∃ i, ∃ hi : i < cands.length,
      cands.get ⟨i, hi⟩ = t ∧ ∀ t2 ∈ cands.take i, ¬ matchesTok tok t2 := by
  induction cands with
  | nil => simp [resolveTransition] at h
  | cons hd tl ih =>
      by_cases hm : matchesTok tok hd
      · rw [resolveTransition, if_pos hm] at h
        cases h
        exact ⟨hm, 0, by simp, rfl, by simp⟩
      · rw [resolveTransition, if_neg hm] at h
        obtain ⟨hmt, i, hi, hget, hpred⟩ := ih h
        refine ⟨hmt, i + 1, by simpa [Nat.succ_lt_succ_iff] using hi, by simpa using hget, ?_⟩
        intro t2 ht2
        rw [List.take_succ_cons] at ht2
        rcases List.mem_cons.mp ht2 with h1 | h1
        · subst h1; exact hm
        · exact hpred t2 h1

/-- If the matching loop returns nothing, no candidate matches the token. -/
lemma resolveTransition_eq_none (cands : List Transition) (tok : String)
    (h : resolveTransition cands tok = none) : ∀ t ∈ cands, ¬ matchesTok tok t := by
  induction cands with
  | nil => simp
  | cons hd tl ih =>
      by_cases hm : matchesTok tok hd
      · rw [resolveTransition, if_pos hm] at h; cases h
      · rw [resolveTransition, if_neg hm] at h
        intro t ht
        rcases List.mem_cons.mp ht with h1 | h1
        · subst h1; exact hm
        · exact ih h t h1

/-- The two demo candidates of the specification. -/
def demoCands : List Transition :=
  [⟨"21", "In Progress", "In Progress"⟩, ⟨"31", "Done", "Done"⟩]

/-- C1: the transition resolver returns the first candidate, in supplied
order, whose name case-insensitively equals the token or whose id exactly
equals the token; on the demo candidates, token "in progress" resolves to
id 21, token "31" to id 31, and token "progress" matches no candidate. -/
theorem C1_resolver_first_match (cands : List Transition) (tok : String) :
    ((∀ t, resolveTransition cands tok = some t →
        matchesTok tok t ∧ ∃ i, ∃ hi : i < cands.length,
          cands.get ⟨i, hi⟩ = t ∧ ∀ t2 ∈ cands.take i, ¬ matchesTok tok t2) ∧
     (resolveTransition cands tok = none → ∀ t ∈ cands, ¬ matchesTok tok t)) ∧
    (resolveTransition demoCands "in progress").map Transition.id = some "21" ∧
    (resolveTransition demoCands "31").map Transition.id = some "31" ∧
    resolveTransition demoCands "progress" = none :=
  ⟨⟨fun t h => resolveTransition_eq_some cands tok t h,
    fun h => resolveTransition_eq_none cands tok h⟩,
   by decide, by decide, by decide⟩

/-- Witness for C1 at the demo candidates and token "31". -/
theorem C1_resolver_first_match_witness :
    matchesTok "31" ⟨"31", "Done", "Done"⟩ ∧ ∃ i, ∃ hi : i < demoCands.length,
      demoCands.get ⟨i, hi⟩ = ⟨"31", "Done", "Done"⟩ ∧
      ∀ t2 ∈ demoCands.take i, ¬ matchesTok "31" t2 :=
  (C1_resolver_first_match demoCands "31").1.1 ⟨"31", "Done", "Done"⟩ (by decide)

/-- C2 (amended): an unregistered tool name yields the unknown-tool
failure carrying the name, provided client acquisition succeeds, and the
trace shows client creation/configuration as the only external-client
interaction — it happens before the unknown-tool check. -/
theorem C2_unknown_tool (c : JiraClient) (n : String) (a : Args)
    (hacq : c.acquire = .ok ()) (hn : n ∉ toolNames) :
    callToolT c n a = (["❌ Unknown tool: " ++ n], [Ev.getClient]) := by
  simp only [toolNames, toolSpecs, List.map, List.mem_cons, List.not_mem_nil, or_false,
    not_or] at hn
  obtain ⟨h1, h2, h3, h4, h5, h6, h7, h8⟩ := hn
  simp only [callToolT, bodyM, M.bind, callC, hacq, M.pure, List.nil_append,
    if_neg h1, if_neg h2, if_neg h3, if_neg h4, if_neg h5, if_neg h6, if_neg h7, if_neg h8]

/-- Witness for C2 at the name "bogus" and a healthy client. -/
theorem C2_unknown_tool_witness :
    callToolT cOK "bogus" noArgs = (["❌ Unknown tool: " ++ "bogus"], [Ev.getClient]) :=
  C2_unknown_tool cOK "bogus" noArgs rfl (by decide)

/-- Counterexample to C2 as stated: on an unknown name the dispatcher
still performs client creation/configuration first — the trace is
[getClient], not empty — and when acquisition fails the outcome is the
catch-all error, not the unknown-tool failure. -/
theorem C2_cex :
    (callToolT cOK "bogus" noArgs).2 = [Ev.getClient] ∧
    (callToolT cOK "bogus" noArgs).2 ≠ ([] : List Ev) ∧
    (callToolT cOK "bogus" noArgs).1 = ["❌ Unknown tool: bogus"] ∧
    (callToolT cBad "bogus" noArgs).1
      = ["❌ Error: Missing Jira configuration. Required environment variables: JIRA_URL, JIRA_EMAIL, JIRA_API_TOKEN"] := by
  decide

/-- A key appears in one conditional update entry exactly when it is that
entry's key and the key is present in the raw arguments. -/
lemma mem_entryIf_fst (a : Args) (k k2 : String) (f : Val → FVal) :
    k ∈ (entryIf a k2 f).map Prod.fst ↔ (k = k2 ∧ (a k2).isSome) := by
  unfold entryIf
  cases h : a k2 <;> simp

/-- Update raw arguments with an explicit empty labels list. -/
def aLbl : Args := argsOf [("issue_key", Val.vStr "X-1"), ("labels", Val.vList [])]

/-- Update raw arguments with labels omitted. -/
def aNoLbl : Args := argsOf [("issue_key", Val.vStr "X-1")]

/-- C3: the update field map contains exactly the optional keys literally
present in the raw arguments, is the map sent to the client, and on the two
demo argument maps contains labels mapped to the empty list, respectively
no labels key. -/
theorem C3_update_partial (c : JiraClient) (a : Args) (v : Val) (iss : Issue)
    (hacq : c.acquire = .ok ())
    (hk : a "issue_key" = some v)
    (hi : c.getIssue v none = .ok iss) :
    (∀ k, k ∈ (updateFieldsOf a).map Prod.fst ↔
        (k ∈ ["summary", "description", "priority", "assignee", "labels"] ∧ (a k).isSome)) ∧
    Ev.updateIssue v (updateFieldsOf a) ∈ (callToolT c "jira_update_issue" a).2 ∧
    ("labels", FVal.plain (Val.vList [])) ∈ updateFieldsOf aLbl ∧
    "labels" ∉ (updateFieldsOf aNoLbl).map Prod.fst := by
  refine ⟨?_, ?_, by decide, by decide⟩
  · intro k
    simp only [updateFieldsOf, List.map_append, List.mem_append, mem_entryIf_fst,
      List.mem_cons, List.not_mem_nil, or_false]
    constructor
    · rintro ((((⟨rfl, h⟩ | ⟨rfl, h⟩) | ⟨rfl, h⟩) | ⟨rfl, h⟩) | ⟨rfl, h⟩) <;> simp [h]
    · rintro ⟨hk2, h⟩
      rcases hk2 with rfl | rfl | rfl | rfl | rfl <;> simp [h]
  · rcases hu : c.updateIssue v (updateFieldsOf a) with e | u
    · rcases e with ⟨st, tx⟩ | m <;>
        simp [callToolT, bodyM, M.bind, callC, hacq, M.pure, updateH, reqArg, hk, hi, hu]
    · simp [callToolT, bodyM, M.bind, callC, hacq, M.pure, updateH, reqArg, hk, hi, hu]

/-- Witness for C3 at the explicit-clear demo arguments. -/
theorem C3_update_partial_witness :
    (∀ k, k ∈ (updateFieldsOf aLbl).map Prod.fst ↔
        (k ∈ ["summary", "description", "priority", "assignee", "labels"] ∧ (aLbl k).isSome)) ∧
    Ev.updateIssue (Val.vStr "X-1") (updateFieldsOf aLbl)
      ∈ (callToolT cOK "jira_update_issue" aLbl).2 ∧
    ("labels", FVal.plain (Val.vList [])) ∈ updateFieldsOf aLbl ∧
    "labels" ∉ (updateFieldsOf aNoLbl).map Prod.fst :=
  C3_update_partial cOK aLbl (Val.vStr "X-1") issA rfl (by decide) rfl

/-- The upstream failure line can never coincide with the catch-all
internal failure line: they differ at their third character. -/
lemma upstreamMsg_ne_internalMsg (x y z : String) :
    "❌ Jira Error: " ++ x ++ " - " ++ y ≠ "❌ Error: " ++ z := by
  intro h
  have h2 := congrArg String.data h
  simp only [String.data_append] at h2
  simp only [List.append_assoc, List.cons_append, List.cons.injEq] at h2
  exact absurd h2.2.2.1 (by decide)

/-- C4: every invocation returns exactly one envelope; a JIRAError raised
by the client maps to the upstream failure line built from its status and
text; and that line is distinguished from every catch-all internal line. -/
theorem C4_error_boundary (c : JiraClient) (n : String) (a : Args) :
    (callToolT c n a).1.length = 1 ∧
    (∀ st tx tr, bodyM c n a [] = (.error (.jiraErr st tx), tr) →
        callToolT c n a = (["❌ Jira Error: " ++ toString st ++ " - " ++ tx], tr)) ∧
    (∀ st : Int, ∀ tx m : String,
        "❌ Jira Error: " ++ toString st ++ " - " ++ tx ≠ "❌ Error: " ++ m) := by
  refine ⟨?_, ?_, fun st tx m => upstreamMsg_ne_internalMsg (toString st) tx m⟩
  · rcases h : bodyM c n a [] with ⟨r, tr⟩
    rcases r with e | s
    · rcases e with ⟨st, tx⟩ | m <;> simp [callToolT, h]
    · simp [callToolT, h]
  · intro st tx tr h
    simp [callToolT, h]

/-- A client whose search raises a JIRAError with status 404. -/
def cJiraFail : JiraClient :=
  { cOK with searchIssues := fun _ _ _ => .error (.jiraErr 404 "Not Found") }

/-- Search arguments used by witnesses. -/
def aSearch : Args := argsOf [("jql", Val.vStr "project = X")]

/-- Witness for C4 on a client whose search raises JIRAError 404. -/
theorem C4_error_boundary_witness :
    (callToolT cJiraFail "jira_search_issues" aSearch).1.length = 1 ∧
    callToolT cJiraFail "jira_search_issues" aSearch
      = (["❌ Jira Error: " ++ toString (404 : Int) ++ " - " ++ "Not Found"],
         [Ev.getClient, Ev.searchIssues (Val.vStr "project = X") (Val.vInt 50) none]) :=
  ⟨(C4_error_boundary cJiraFail "jira_search_issues" aSearch).1,
   (C4_error_boundary cJiraFail "jira_search_issues" aSearch).2.1 404 "Not Found"
     [Ev.getClient, Ev.searchIssues (Val.vStr "project = X") (Val.vInt 50) none] rfl⟩

/-- C5 (amended): for every registered tool and raw-arguments map missing
a required field — other than create's issue_type, which the handler
silently defaults to "Task" — the call fails with the catch-all error
naming a missing required field, after only the client-acquisition call
and before any mutating client call. -/
theorem C5_missing_required (c : JiraClient) (n : String) (a : Args)
    (hacq : c.acquire = .ok ())
    (hn : n ∈ toolNames)
    (hf : ∃ f ∈ requiredOf n, a f = none ∧ ¬(n = "jira_create_issue" ∧ f = "issue_type")) :
    ∃ f, f ∈ requiredOf n ∧ a f = none ∧
      callToolT c n a = (["❌ Error: " ++ ("\x27" ++ f ++ "\x27")], [Ev.getClient]) ∧
      ∀ e ∈ (callToolT c n a).2, e.isMutating = false := by
  obtain ⟨f, hfm, hfa, hfex⟩ := hf
  simp only [toolNames, toolSpecs, List.map, List.mem_cons, List.not_mem_nil, or_false] at hn
  rcases hn with rfl | rfl | rfl | rfl | rfl | rfl | rfl | rfl
  · -- jira_search_issues
    have hr : requiredOf "jira_search_issues" = ["jql"] := by decide
    rw [hr] at hfm
    obtain rfl := List.mem_singleton.mp hfm
    have hres : callToolT c "jira_search_issues" a
        = (["❌ Error: " ++ ("\x27" ++ "jql" ++ "\x27")], [Ev.getClient]) := by
      simp [callToolT, bodyM, M.bind, callC, hacq, M.pure, M.raiseExc, searchH, reqArg, hfa]
    exact ⟨"jql", by decide, hfa, hres, by rw [hres]; decide⟩
  · -- jira_get_issue
    have hr : requiredOf "jira_get_issue" = ["issue_key"] := by decide
    rw [hr] at hfm
    obtain rfl := List.mem_singleton.mp hfm
    have hres : callToolT c "jira_get_issue" a
        = (["❌ Error: " ++ ("\x27" ++ "issue_key" ++ "\x27")], [Ev.getClient]) := by
      simp [callToolT, bodyM, M.bind, callC, hacq, M.pure, M.raiseExc, getH, reqArg, hfa]
    exact ⟨"issue_key", by decide, hfa, hres, by rw [hres]; decide⟩
  · -- jira_create_issue
    have hr : requiredOf "jira_create_issue" = ["project", "summary", "issue_type"] := by decide
    rw [hr] at hfm
    have hfne : f ≠ "issue_type" := fun h => hfex ⟨rfl, h⟩
    rcases hp : a "project" with _ | p
    · have hres : callToolT c "jira_create_issue" a
          = (["❌ Error: " ++ ("\x27" ++ "project" ++ "\x27")], [Ev.getClient]) := by
        simp [callToolT, bodyM, M.bind, callC, hacq, M.pure, M.raiseExc, createH, reqArg, hp]
      exact ⟨"project", by decide, hp, hres, by rw [hres]; decide⟩
    · simp only [List.mem_cons, List.not_mem_nil, or_false] at hfm
      have hfs : f = "summary" := by
        rcases hfm with rfl | rfl | rfl
        · rw [hfa] at hp; cases hp
        · rfl
        · exact absurd rfl hfne
      subst hfs
      have hres : callToolT c "jira_create_issue" a
          = (["❌ Error: " ++ ("\x27" ++ "summary" ++ "\x27")], [Ev.getClient]) := by
        simp [callToolT, bodyM, M.bind, callC, hacq, M.pure, M.raiseExc, createH, reqArg, hp, hfa]
      exact ⟨"summary", by decide, hfa, hres, by rw [hres]; decide⟩
  · -- jira_update_issue
    have hr : requiredOf "jira_update_issue" = ["issue_key"] := by decide
    rw [hr] at hfm
    obtain rfl := List.mem_singleton.mp hfm
    have hres : callToolT c "jira_update_issue" a
        = (["❌ Error: " ++ ("\x27" ++ "issue_key" ++ "\x27")], [Ev.getClient]) := by
      simp [callToolT, bodyM, M.bind, callC, hacq, M.pure, M.raiseExc, updateH, reqArg, hfa]
    exact ⟨"issue_key", by decide, hfa, hres, by rw [hres]; decide⟩
  · -- jira_add_comment
    have hr : requiredOf "jira_add_comment" = ["issue_key", "comment"] := by decide
    rw [hr] at hfm
    rcases hk : a "issue_key" with _ | v
    · have hres : callToolT c "jira_add_comment" a
          = (["❌ Error: " ++ ("\x27" ++ "issue_key" ++ "\x27")], [Ev.getClient]) := by
        simp [callToolT, bodyM, M.bind, callC, hacq, M.pure, M.raiseExc, addCommentH, reqArg, hk]
      exact ⟨"issue_key", by decide, hk, hres, by rw [hres]; decide⟩
    · simp only [List.mem_cons, List.not_mem_nil, or_false] at hfm
      have hfs : f = "comment" := by
        rcases hfm with rfl | rfl
        · rw [hfa] at hk; cases hk
        · rfl
      subst hfs
      have hres : callToolT c "jira_add_comment" a
          = (["❌ Error: " ++ ("\x27" ++ "comment" ++ "\x27")], [Ev.getClient]) := by
        simp [callToolT, bodyM, M.bind, callC, hacq, M.pure, M.raiseExc, addCommentH, reqArg, hk, hfa]
      exact ⟨"comment", by decide, hfa, hres, by rw [hres]; decide⟩
  · -- jira_transition_issue
    have hr : requiredOf "jira_transition_issue" = ["issue_key", "transition"] := by decide
    rw [hr] at hfm
    rcases hk : a "issue_key" with _ | v
    · have hres : callToolT c "jira_transition_issue" a
          = (["❌ Error: " ++ ("\x27" ++ "issue_key" ++ "\x27")], [Ev.getClient]) := by
        simp [callToolT, bodyM, M.bind, callC, hacq, M.pure, M.raiseExc, transitionH, reqArg, hk]
      exact ⟨"issue_key", by decide, hk, hres, by rw [hres]; decide⟩
    · simp only [List.mem_cons, List.not_mem_nil, or_false] at hfm
      have hfs : f = "transition" := by
        rcases hfm with rfl | rfl
        · rw [hfa] at hk; cases hk
        · rfl
      subst hfs
      have hres : callToolT c "jira_transition_issue" a
          = (["❌ Error: " ++ ("\x27" ++ "transition" ++ "\x27")], [Ev.getClient]) := by
        simp [callToolT, bodyM, M.bind, callC, hacq, M.pure, M.raiseExc, transitionH, reqArg, hk, hfa]
      exact ⟨"transition", by decide, hfa, hres, by rw [hres]; decide⟩
  · -- jira_get_transitions
    have hr : requiredOf "jira_get_transitions" = ["issue_key"] := by decide
    rw [hr] at hfm
    obtain rfl := List.mem_singleton.mp hfm
    have hres : callToolT c "jira_get_transitions" a
        = (["❌ Error: " ++ ("\x27" ++ "issue_key" ++ "\x27")], [Ev.getClient]) := by
      simp [callToolT, bodyM, M.bind, callC, hacq, M.pure, M.raiseExc, getTransH, reqArg, hfa]
    exact ⟨"issue_key", by decide, hfa, hres, by rw [hres]; decide⟩
  · -- jira_list_projects
    have hr : requiredOf "jira_list_projects" = [] := by decide
    rw [hr] at hfm
    cases hfm

/-- Witness for C5 on search with an empty arguments map. -/
theorem C5_missing_required_witness :
    ∃ f, f ∈ requiredOf "jira_search_issues" ∧ noArgs f = none ∧
      callToolT cOK "jira_search_issues" noArgs
        = (["❌ Error: " ++ ("\x27" ++ f ++ "\x27")], [Ev.getClient]) ∧
      ∀ e ∈ (callToolT cOK "jira_search_issues" noArgs).2, e.isMutating = false :=
  C5_missing_required cOK "jira_search_issues" noArgs rfl (by decide)
    ⟨"jql", by decide, rfl, by decide⟩

/-- Create arguments with the schema-required issue_type field missing. -/
def aCreateNoType : Args := argsOf [("project", Val.vStr "PROJ"), ("summary", Val.vStr "S")]

/-- Counterexample to C5 as stated: issue_type is schema-required for
create, yet a call missing it succeeds — the handler substitutes "Task" —
and the mutating create call is issued. -/
theorem C5_cex :
    "issue_type" ∈ requiredOf "jira_create_issue" ∧
    aCreateNoType "issue_type" = none ∧
    (callToolT cOK "jira_create_issue" aCreateNoType).1
      = ["✅ Issue created successfully!\n\nKey: PROJ-9\nURL: https://jira.example.com/browse/PROJ-9\nSummary: S"] ∧
    (Ev.createIssue (createFieldsOf (Val.vStr "PROJ") (Val.vStr "S") aCreateNoType)
        ∈ (callToolT cOK "jira_create_issue" aCreateNoType).2) ∧
    (createFieldsOf (Val.vStr "PROJ") (Val.vStr "S") aCreateNoType).contains
      ("issuetype", FVal.nameObj (Val.vStr "Task")) = true := by
  decide

/-- Transition-call arguments for an issue key and a token. -/
def transArgsOf (k tok : String) : Args :=
  argsOf [("issue_key", Val.vStr k), ("transition", Val.vStr tok)]

/-- C6 (amended): when the token matches no candidate, the result is the
informational not-found message listing every candidate name and no
mutating client call is made; when a candidate matches and its id is
non-empty, a successful apply yields the confirmation naming the resolved
transition (a matched candidate whose id is the empty string is instead
reported as not found, see the counterexample). -/
theorem C6_transition_outcomes (c : JiraClient) (k tok : String) (cands : List Transition)
    (hacq : c.acquire = .ok ())
    (ht : c.transitions (Val.vStr k) = .ok cands) :
    (resolveTransition cands tok = none →
        (callToolT c "jira_transition_issue" (transArgsOf k tok)).1
          = [transitionNotFoundMsg (Val.vStr tok) cands] ∧
        ∀ e ∈ (callToolT c "jira_transition_issue" (transArgsOf k tok)).2,
          e.isMutating = false) ∧
    (∀ t, resolveTransition cands tok = some t → t.id ≠ "" →
        c.applyTransition (Val.vStr k) t.id none = .ok () →
        (callToolT c "jira_transition_issue" (transArgsOf k tok)).1
          = ["✅ Issue " ++ k ++ " transitioned to \x27" ++ t.name ++ "\x27"]) := by
  constructor
  · intro hnone
    cases cands with
    | nil =>
        constructor <;>
          simp [callToolT, bodyM, M.bind, callC, hacq, M.pure, M.raiseExc, transitionH,
            reqArg, transArgsOf, argsOf, ht, transitionNotFoundMsg, Ev.isMutating]
    | cons hd tl =>
        constructor <;>
          simp [callToolT, bodyM, M.bind, callC, hacq, M.pure, M.raiseExc, transitionH,
            reqArg, transArgsOf, argsOf, ht, hnone, transitionNotFoundMsg, Ev.isMutating]
  · intro t hsome hid happly
    cases cands with
    | nil => simp [resolveTransition] at hsome
    | cons hd tl =>
        simp [callToolT, bodyM, M.bind, callC, hacq, M.pure, M.raiseExc, transitionH,
          reqArg, transArgsOf, argsOf, ht, hsome, hid, happly, Val.pyStr]

/-- Witness for C6: the not-found outcome on an unmatched token, and the
success confirmation on a matched candidate with non-empty id. -/
theorem C6_transition_outcomes_witness :
    ((callToolT cOK "jira_transition_issue" (transArgsOf "P-1" "zzz")).1
        = [transitionNotFoundMsg (Val.vStr "zzz")
            [⟨"21", "In Progress", "In Progress"⟩, ⟨"31", "Done", "Done"⟩]] ∧
      ∀ e ∈ (callToolT cOK "jira_transition_issue" (transArgsOf "P-1" "zzz")).2,
        e.isMutating = false) ∧
    (callToolT cOK "jira_transition_issue" (transArgsOf "P-1" "done")).1
      = ["✅ Issue " ++ "P-1" ++ " transitioned to \x27" ++ "Done" ++ "\x27"] :=
  ⟨(C6_transition_outcomes cOK "P-1" "zzz" _ rfl rfl).1 (by decide),
   (C6_transition_outcomes cOK "P-1" "done" _ rfl rfl).2 ⟨"31", "Done", "Done"⟩
     (by decide) (by decide) rfl⟩

/-- Counterexample to C6 as stated: a candidate with an empty id matches
the token, yet the call reports not-found and never applies the
transition, because the source treats the resolved id as falsy. -/
theorem C6_cex :
    resolveTransition [⟨"", "Done", "Done"⟩] "Done" = some ⟨"", "Done", "Done"⟩ ∧
    (callToolT cEmptyId "jira_transition_issue" (transArgsOf "P-1" "Done")).1
      = [transitionNotFoundMsg (Val.vStr "Done") [⟨"", "Done", "Done"⟩]] ∧
    ∀ e ∈ (callToolT cEmptyId "jira_transition_issue" (transArgsOf "P-1" "Done")).2,
      e.isMutating = false := by
  decide

/-- The create arguments of the end-to-end scenario: project PROJ, title
"Fix bug", type Bug, no optional fields. -/
def aCreate7 : Args :=
  argsOf [("project", Val.vStr "PROJ"), ("summary", Val.vStr "Fix bug"),
          ("issue_type", Val.vStr "Bug")]

/-- The field map the create handler builds for those arguments. -/
def fm7 : List (String × FVal) := createFieldsOf (Val.vStr "PROJ") (Val.vStr "Fix bug") aCreate7

/-- C7: creating with project PROJ, title "Fix bug", type Bug and no
optional fields succeeds with the created key and a browse reference built
from it, and the submitted field map has no priority, assignee or labels
keys. -/
theorem C7_create_end_to_end (c : JiraClient) (k : String)
    (hacq : c.acquire = .ok ())
    (hcr : c.createIssue fm7 = .ok k) :
    (callToolT c "jira_create_issue" aCreate7).1
      = ["✅ Issue created successfully!\n\n" ++ "Key: " ++ k ++ "\n"
          ++ "URL: " ++ c.clientInfo ++ "/browse/" ++ k ++ "\n"
          ++ "Summary: " ++ "Fix bug"] ∧
    (callToolT c "jira_create_issue" aCreate7).2 = [Ev.getClient, Ev.createIssue fm7] ∧
    fm7 = [("project", FVal.keyObj (Val.vStr "PROJ")),
           ("summary", FVal.plain (Val.vStr "Fix bug")),
           ("description", FVal.plain (Val.vStr "")),
           ("issuetype", FVal.nameObj (Val.vStr "Bug"))] ∧
    "priority" ∉ fm7.map Prod.fst ∧ "assignee" ∉ fm7.map Prod.fst ∧
    "labels" ∉ fm7.map Prod.fst := by
  have hp : aCreate7 "project" = some (Val.vStr "PROJ") := rfl
  have hs : aCreate7 "summary" = some (Val.vStr "Fix bug") := rfl
  have hcr2 : c.createIssue (createFieldsOf (Val.vStr "PROJ") (Val.vStr "Fix bug") aCreate7)
      = .ok k := hcr
  refine ⟨?_, ?_, by decide, by decide, by decide, by decide⟩ <;>
    simp [callToolT, bodyM, M.bind, callC, hacq, M.pure, createH, reqArg, hp, hs, hcr2,
      fm7, Val.pyStr]

/-- Witness for C7 with the healthy concrete client. -/
theorem C7_create_end_to_end_witness :
    (callToolT cOK "jira_create_issue" aCreate7).1
      = ["✅ Issue created successfully!\n\n" ++ "Key: " ++ "PROJ-9" ++ "\n"
          ++ "URL: " ++ cOK.clientInfo ++ "/browse/" ++ "PROJ-9" ++ "\n"
          ++ "Summary: " ++ "Fix bug"] ∧
    (callToolT cOK "jira_create_issue" aCreate7).2 = [Ev.getClient, Ev.createIssue fm7] ∧
    fm7 = [("project", FVal.keyObj (Val.vStr "PROJ")),
           ("summary", FVal.plain (Val.vStr "Fix bug")),
           ("description", FVal.plain (Val.vStr "")),
           ("issuetype", FVal.nameObj (Val.vStr "Bug"))] ∧
    "priority" ∉ fm7.map Prod.fst ∧ "assignee" ∉ fm7.map Prod.fst ∧
    "labels" ∉ fm7.map Prod.fst :=
  C7_create_end_to_end cOK "PROJ-9" rfl rfl

/-- The comments key appears in the get-issue record exactly when the
record was built with comments. -/
lemma comments_key_iff (u : String) (iss : Issue) (w : Bool) (cs : List Comment) :
    "comments" ∈ (getIssueData u iss w cs).map Prod.fst ↔ w = true := by
  cases w <;> simp [getIssueData]

/-- C8: the get-issue payload record carries a comments key exactly when
the caller-supplied expand list names "comments"; with expand absent or
not naming comments, the record has no comments key. -/
theorem C8_get_comments_expand (c : JiraClient) (a : Args) (kv : Val)
    (l : Option (List String)) (iss : Issue) (cs : List Comment)
    (hacq : c.acquire = .ok ())
    (hk : a "issue_key" = some kv)
    (he : a "expand" = l.map Val.vList)
    (hi : c.getIssue kv (expandJoinOf l) = .ok iss)
    (hc : c.getComments kv = .ok cs) :
    (callToolT c "jira_get_issue" a).1
      = [renderObj (getIssueData c.clientInfo iss ((l.getD []).contains "comments")
          (if (l.getD []).contains "comments" then cs else []))] ∧
    ("comments" ∈ (getIssueData c.clientInfo iss ((l.getD []).contains "comments")
          (if (l.getD []).contains "comments" then cs else [])).map Prod.fst
       ↔ "comments" ∈ l.getD []) := by
  constructor
  · cases l with
    | none =>
        have he2 : a "expand" = none := he
        have hi2 : c.getIssue kv none = .ok iss := hi
        simp [callToolT, bodyM, M.bind, callC, hacq, M.pure, getH, reqArg, hk, he2, hi2]
    | some lst =>
        have he2 : a "expand" = some (Val.vList lst) := he
        cases lst with
        | nil =>
            have hi2 : c.getIssue kv none = .ok iss := hi
            simp [callToolT, bodyM, M.bind, callC, hacq, M.pure, getH, reqArg, hk, he2, hi2,
              Val.truthy]
        | cons x xs =>
            have hi2 : c.getIssue kv (some (String.intercalate "," (x :: xs))) = .ok iss := hi
            by_cases hm : "comments" ∈ x :: xs
            · have hb : (x :: xs).contains "comments" = true := by
                simpa using hm
              simp [callToolT, bodyM, M.bind, callC, hacq, M.pure, getH, reqArg, hk, he2,
                hi2, hc, pyJoin, pyInM, Val.truthy, hb, hm]
            · have hb : (x :: xs).contains "comments" = false := by
                simpa using hm
              simp [callToolT, bodyM, M.bind, callC, hacq, M.pure, getH, reqArg, hk, he2,
                hi2, pyJoin, pyInM, Val.truthy, hb, hm]
  · rw [comments_key_iff]
    cases l with
    | none => simp
    | some lst => simp

/-- Get-issue arguments expanding comments, used by the C8 witness. -/
def aGet8 : Args := argsOf [("issue_key", Val.vStr "P-1"), ("expand", Val.vList ["comments"])]

/-- Witness for C8 with expand naming comments. -/
theorem C8_get_comments_expand_witness :
    (callToolT cOK "jira_get_issue" aGet8).1
      = [renderObj (getIssueData cOK.clientInfo issA
          (((some ["comments"]).getD []).contains "comments")
          (if ((some ["comments"]).getD []).contains "comments" then [] else []))] ∧
    ("comments" ∈ (getIssueData cOK.clientInfo issA
          (((some ["comments"]).getD []).contains "comments")
          (if ((some ["comments"]).getD []).contains "comments" then [] else [])).map Prod.fst
       ↔ "comments" ∈ (some ["comments"]).getD []) :=
  C8_get_comments_expand cOK aGet8 (Val.vStr "P-1") (some ["comments"]) issA []
    rfl (by decide) (by decide) rfl rfl

/-- Counterexample to C9 as stated: the create tool's issue_type parameter
is listed as required and still declares the default "Task". -/
theorem C9_cex :
    ∃ t ∈ toolSpecs, t.name = "jira_create_issue" ∧
      ∃ p ∈ t.properties, p.name = "issue_type" ∧ p.name ∈ t.required ∧
        p.default = some (Val.vStr "Task") := by
  decide

/-- C9 (amended): within every registered tool no two parameters share a
name, and every required parameter declares no default — except create's
issue_type, which is required yet defaults to "Task". -/
theorem C9_schema_invariant :
    ∀ t ∈ toolSpecs,
      (t.properties.map (fun p => p.name)).Nodup ∧
      ∀ p ∈ t.properties, p.name ∈ t.required →
        p.default = none ∨
          (t.name = "jira_create_issue" ∧ p.name = "issue_type" ∧
           p.default = some (Val.vStr "Task")) := by
  decide

/-- Witness for C9 at the first registered tool. -/
theorem C9_schema_invariant_witness :
    ((toolSpecs.get ⟨0, by decide⟩).properties.map (fun p => p.name)).Nodup :=
  (C9_schema_invariant (toolSpecs.get ⟨0, by decide⟩) (List.get_mem _ _ _)).1

/-- A key appears in one truthiness-guarded entry exactly when it is that
entry's key and the argument is present and truthy. -/
lemma mem_entryIfTruthy_fst (k k2 : String) (f : Val → FVal) (o : Option Val) :
    k ∈ (entryIfTruthy k2 f o).map Prod.fst
      ↔ (k = k2 ∧ ∃ v, o = some v ∧ v.truthy = true) := by
  rcases o with _ | v
  · simp [entryIfTruthy]
  · by_cases hv : v.truthy = true
    · simp [entryIfTruthy, hv]
    · simp only [Bool.not_eq_true] at hv
      simp [entryIfTruthy, hv]

/-- C10: the submitted create field map always carries a description key —
the caller's description or the empty string — while priority, assignee
and labels appear exactly when present and non-empty (truthy). -/
theorem C10_create_description_always (c : JiraClient) (p s : Val) (a : Args)
    (hacq : c.acquire = .ok ())
    (hp : a "project" = some p)
    (hs : a "summary" = some s) :
    (("description", FVal.plain ((a "description").getD (Val.vStr "")))
        ∈ createFieldsOf p s a) ∧
    ("priority" ∈ (createFieldsOf p s a).map Prod.fst
        ↔ ∃ v, a "priority" = some v ∧ v.truthy = true) ∧
    ("assignee" ∈ (createFieldsOf p s a).map Prod.fst
        ↔ ∃ v, a "assignee" = some v ∧ v.truthy = true) ∧
    ("labels" ∈ (createFieldsOf p s a).map Prod.fst
        ↔ ((a "labels").getD (Val.vList [])).truthy = true) ∧
    Ev.createIssue (createFieldsOf p s a) ∈ (callToolT c "jira_create_issue" a).2 := by
  refine ⟨by simp [createFieldsOf], ?_, ?_, ?_, ?_⟩
  · simp only [createFieldsOf, List.map_append, List.mem_append, mem_entryIfTruthy_fst]
    simp
  · simp only [createFieldsOf, List.map_append, List.mem_append, mem_entryIfTruthy_fst]
    simp
  · rcases hl : a "labels" with _ | v
    · simp only [createFieldsOf, List.map_append, List.mem_append, mem_entryIfTruthy_fst, hl]
      simp [Val.truthy]
    · simp only [createFieldsOf, List.map_append, List.mem_append, mem_entryIfTruthy_fst, hl]
      simp
  · rcases hcr : c.createIssue (createFieldsOf p s a) with e | k
    · rcases e with ⟨st, tx⟩ | m <;>
        simp [callToolT, bodyM, M.bind, callC, hacq, M.pure, createH, reqArg, hp, hs, hcr]
    · simp [callToolT, bodyM, M.bind, callC, hacq, M.pure, createH, reqArg, hp, hs, hcr]

/-- Witness for C10 at the end-to-end create arguments. -/
theorem C10_create_description_always_witness :
    (("description", FVal.plain ((aCreate7 "description").getD (Val.vStr "")))
        ∈ createFieldsOf (Val.vStr "PROJ") (Val.vStr "Fix bug") aCreate7) ∧
    ("priority" ∈ (createFieldsOf (Val.vStr "PROJ") (Val.vStr "Fix bug") aCreate7).map Prod.fst
        ↔ ∃ v, aCreate7 "priority" = some v ∧ v.truthy = true) ∧
    ("assignee" ∈ (createFieldsOf (Val.vStr "PROJ") (Val.vStr "Fix bug") aCreate7).map Prod.fst
        ↔ ∃ v, aCreate7 "assignee" = some v ∧ v.truthy = true) ∧
    ("labels" ∈ (createFieldsOf (Val.vStr "PROJ") (Val.vStr "Fix bug") aCreate7).map Prod.fst
        ↔ ((aCreate7 "labels").getD (Val.vList [])).truthy = true) ∧
    Ev.createIssue (createFieldsOf (Val.vStr "PROJ") (Val.vStr "Fix bug") aCreate7)
      ∈ (callToolT cOK "jira_create_issue" aCreate7).2 :=
  C10_create_description_always cOK (Val.vStr "PROJ") (Val.vStr "Fix bug") aCreate7
    rfl (by decide) (by decide)
